import Mathlib

/-!
Shallow embedding of the Databricks job-monitoring dashboard
(src/app.py, src/config.py, src/utils/sidebar.py) and proofs about its
status classifier, formatting helpers, refresh scheduler and per-job
aggregation loop.

Conventions of the embedding:
- Python None-able arguments become Option values.
- The SDK enums RunLifeCycleState and RunResultState become inductive
  types with the known members plus an UNKNOWN constructor carrying the
  member name, so that unrecognized (future) enum members are part of
  the domain.  The Python str() of a plain Enum member is the class name,
  a dot, and the member name; pyStr below reproduces that.
- Python truthiness tests on integer timestamps (None and 0 are falsy)
  are modelled by matching the Option and testing the integer against 0.
- Python float arithmetic on durations is modelled by exact rational
  arithmetic; int() truncation toward zero is pyInt below.
-/

/-- Lifecycle states of a run, after databricks.sdk.service.jobs
RunLifeCycleState, with an extra UNKNOWN constructor for enum members
this classifier does not know. -/
inductive RunLifeCycleState where
  | BLOCKED
  | INTERNAL_ERROR
  | PENDING
  | QUEUED
  | RUNNING
  | SKIPPED
  | TERMINATED
  | TERMINATING
  | WAITING_FOR_RETRY
  | UNKNOWN (name : String)
deriving DecidableEq, Repr

/-- Result states of a run, after databricks.sdk.service.jobs
RunResultState, with an extra UNKNOWN constructor for enum members this
classifier does not know. -/
inductive RunResultState where
  | CANCELED
  | FAILED
  | MAXIMUM_CONCURRENT_RUNS_REACHED
  | SUCCESS
  | TIMEDOUT
  | UNKNOWN (name : String)
deriving DecidableEq, Repr

/-- Python str() of a RunLifeCycleState enum member: class name, dot,
member name. -/
def pyStr : RunLifeCycleState → String
  | .BLOCKED => "RunLifeCycleState.BLOCKED"
  | .INTERNAL_ERROR => "RunLifeCycleState.INTERNAL_ERROR"
  | .PENDING => "RunLifeCycleState.PENDING"
  | .QUEUED => "RunLifeCycleState.QUEUED"
  | .RUNNING => "RunLifeCycleState.RUNNING"
  | .SKIPPED => "RunLifeCycleState.SKIPPED"
  | .TERMINATED => "RunLifeCycleState.TERMINATED"
  | .TERMINATING => "RunLifeCycleState.TERMINATING"
  | .WAITING_FOR_RETRY => "RunLifeCycleState.WAITING_FOR_RETRY"
  | .UNKNOWN name => "RunLifeCycleState." ++ name

namespace Config

/-- Status color constants from src/config.py. -/
def STATUS_SUCCESS : String := "#10B981"

def STATUS_FAILED : String := "#EF4444"

def STATUS_RUNNING : String := "#3B82F6"

def STATUS_CANCELED : String := "#8B5CF6"

def STATUS_TIMEOUT : String := "#EC4899"

def STATUS_WARNING : String := "#F59E0B"

def STATUS_NEUTRAL : String := "#6B7280"

/-- Default auto-refresh interval in seconds, from src/config.py. -/
def DEFAULT_REFRESH_INTERVAL : Int := 30

/-- Display timezone name, from src/config.py. -/
def DISPLAY_TIMEZONE : String := "America/New_York"

end Config

/-- Display tuple returned by get_status_info in src/app.py: the Python
function returns the 4-tuple (emoji, color, text, css_class). -/
structure DisplayStatus where
  icon : String
  color : String
  label : String
  css_class : String
deriving DecidableEq, Repr

/-- Embedding of get_status_info from src/app.py lines 124 to 146: the
if/elif chain on the lifecycle state, with the nested chain on the
result state under TERMINATED, and the final else branch returning the
neutral style with str(state) as the label. -/
def get_status_info (state : RunLifeCycleState) (result_state : Option RunResultState) :
    DisplayStatus :=
  if state = .RUNNING ∨ state = .PENDING then
    ⟨"🔵", Config.STATUS_RUNNING, "RUNNING", "status-running"⟩
  else if state = .TERMINATING then
    ⟨"⚠️", Config.STATUS_WARNING, "TERMINATING", "status-warning"⟩
  else if state = .TERMINATED then
    if result_state = some .SUCCESS then
      ⟨"✅", Config.STATUS_SUCCESS, "SUCCESS", "status-success"⟩
    else if result_state = some .FAILED then
      ⟨"❌", Config.STATUS_FAILED, "FAILED", "status-failed"⟩
    else if result_state = some .CANCELED then
      ⟨"🚫", Config.STATUS_CANCELED, "CANCELED", "status-canceled"⟩
    else if result_state = some .TIMEDOUT then
      ⟨"⏱️", Config.STATUS_TIMEOUT, "TIMEOUT", "status-timeout"⟩
    else
      ⟨"⚪", Config.STATUS_NEUTRAL, "TERMINATED", "status-neutral"⟩
  else if state = .SKIPPED then
    ⟨"⏭️", Config.STATUS_WARNING, "SKIPPED", "status-warning"⟩
  else if state = .INTERNAL_ERROR then
    ⟨"⚠️", Config.STATUS_FAILED, "ERROR", "status-failed"⟩
  else
    ⟨"⚪", Config.STATUS_NEUTRAL, pyStr state, "status-neutral"⟩

/-- Python int() on a rational: truncation toward zero, floor for
non-negative and ceiling for negative arguments. -/
def pyInt (q : ℚ) : Int :=
  if 0 ≤ q then ⌊q⌋ else ⌈q⌉

/-- Python float modulo on rationals: the result takes the sign of the
divisor, a percent b = a - b * floor(a / b). -/
def pyFmod (a b : ℚ) : ℚ :=
  a - b * (⌊a / b⌋ : ℚ)

/-- Embedding of calculate_duration from src/app.py lines 160 to 172.
The Python guard is the truthiness test on both Optional integers, so
None and 0 both take the fallback; division by 1000 is float division,
modelled exactly on rationals, and int() is pyInt. -/
def calculate_duration (start_ms end_ms : Option Int) : String :=
  match start_ms, end_ms with
  | some s, some e =>
    if s ≠ 0 ∧ e ≠ 0 then
      let duration_sec : ℚ := ((e : ℚ) - (s : ℚ)) / 1000
      if duration_sec < 60 then
        toString (pyInt duration_sec) ++ "s"
      else if duration_sec < 3600 then
        toString (pyInt (duration_sec / 60)) ++ "m " ++
          toString (pyInt (pyFmod duration_sec 60)) ++ "s"
      else
        toString (pyInt (duration_sec / 3600)) ++ "h " ++
          toString (pyInt (pyFmod duration_sec 3600 / 60)) ++ "m"
    else "N/A"
  | _, _ => "N/A"

/-- Zero-padding to width two, as strftime does for month, day, hour,
minute and second fields. -/
def pad2 (n : Int) : String :=
  if n < 10 then "0" ++ toString n else toString n

/-- Zero-padding to width four, as strftime does for the year field. -/
def pad4 (n : Int) : String :=
  if n < 10 then "000" ++ toString n
  else if n < 100 then "00" ++ toString n
  else if n < 1000 then "0" ++ toString n
  else toString n

/-- Proleptic Gregorian date (year, month, day) of a day count relative
to 1970-01-01, the civil-from-days algorithm on floored division. -/
def civilFromDays (z0 : Int) : Int × Int × Int :=
  let z := z0 + 719468
  let era : Int := (if 0 ≤ z then z else z - 146096).fdiv 146097
  let doe : Int := z - era * 146097
  let yoe : Int := (doe - doe.fdiv 1460 + doe.fdiv 36524 - doe.fdiv 146096).fdiv 365
  let y : Int := yoe + era * 400
  let doy : Int := doe - (365 * yoe + yoe.fdiv 4 - yoe.fdiv 100)
  let mp : Int := (5 * doy + 2).fdiv 153
  let d : Int := doy - (153 * mp + 2).fdiv 5 + 1
  let m : Int := mp + (if mp < 10 then 3 else -9)
  (y + (if m ≤ 2 then 1 else 0), m, d)

/-- Day count relative to 1970-01-01 of a proleptic Gregorian date, the
days-from-civil algorithm, inverse of civilFromDays. -/
def daysFromCivil (y0 m d : Int) : Int :=
  let y := y0 - (if m ≤ 2 then 1 else 0)
  let era : Int := (if 0 ≤ y then y else y - 399).fdiv 400
  let yoe : Int := y - era * 400
  let doy : Int := (153 * (m + (if 2 < m then -3 else 9)) + 2).fdiv 5 + d - 1
  let doe : Int := yoe * 365 + yoe.fdiv 4 - yoe.fdiv 100 + doy
  era * 146097 + doe - 719468

/-- Weekday of an epoch day count, 0 meaning Sunday; day 0, 1970-01-01,
was a Thursday. -/
def weekdayOfDay (day : Int) : Int :=
  (day + 4).emod 7

/-- UTC second at which daylight saving time starts in the given year
under the America/New_York rules in force since 2007: the second Sunday
of March at 2 AM EST, which is 07:00 UTC. -/
def dst_start_utc (y : Int) : Int :=
  let w := weekdayOfDay (daysFromCivil y 3 1)
  let secondSunday := 1 + (7 - w).emod 7 + 7
  daysFromCivil y 3 secondSunday * 86400 + 7 * 3600

/-- UTC second at which daylight saving time ends in the given year
under the America/New_York rules in force since 2007: the first Sunday
of November at 2 AM EDT, which is 06:00 UTC. -/
def dst_end_utc (y : Int) : Int :=
  let w := weekdayOfDay (daysFromCivil y 11 1)
  let firstSunday := 1 + (7 - w).emod 7
  daysFromCivil y 11 firstSunday * 86400 + 6 * 3600

/-- Offset in seconds of America/New_York from UTC at the given UTC
epoch second: -4 hours during daylight saving time and -5 hours
otherwise, with the IANA rules in force since 2007. -/
def ny_utc_offset (t : Int) : Int :=
  let y := (civilFromDays (t.fdiv 86400)).1
  if dst_start_utc y ≤ t ∧ t < dst_end_utc y then -14400 else -18000

/-- Rendering of a present epoch-milliseconds value by format_timestamp
in src/app.py: datetime.fromtimestamp(ts over 1000, UTC), converted with
astimezone to the configured America/New_York zone, then strftime with
the pattern year-month-day space hour:minute:second.  The whole-second
part of the instant is the floored division by 1000; strftime drops any
fractional second. -/
def render_local_timestamp (ts_ms : Int) : String :=
  let utc_s := ts_ms.fdiv 1000
  let local_s := utc_s + ny_utc_offset utc_s
  let day := local_s.fdiv 86400
  let sod := local_s.emod 86400
  let ymd := civilFromDays day
  pad4 ymd.1 ++ "-" ++ pad2 ymd.2.1 ++ "-" ++ pad2 ymd.2.2 ++ " " ++
    pad2 (sod.fdiv 3600) ++ ":" ++ pad2 ((sod.emod 3600).fdiv 60) ++ ":" ++
    pad2 (sod.emod 60)

/-- Embedding of format_timestamp from src/app.py lines 149 to 157: the
guard is the Python truthiness test on the Optional integer, so None and
0 both return the fallback string. -/
def format_timestamp (ts_ms : Option Int) : String :=
  match ts_ms with
  | some ts => if ts ≠ 0 then render_local_timestamp ts else "N/A"
  | none => "N/A"

/-- Session-scoped refresh state from src/app.py session initialization
and src/utils/sidebar.py: the auto-refresh flag, the slider interval in
seconds, and the epoch second of the last refresh. -/
structure RefreshState where
  auto_refresh : Bool
  refresh_interval : Int
  last_refresh : ℚ
deriving DecidableEq, Repr

/-- Scheduler decision from src/utils/sidebar.py lines 121 to 129: the
auto-refresh branch computes elapsed = now - last_refresh and fires when
elapsed is at least the configured interval; nothing fires when the
auto-refresh toggle is off, since the whole block is guarded by it. -/
def should_refresh (st : RefreshState) (now : ℚ) : Bool :=
  st.auto_refresh && decide ((st.refresh_interval : ℚ) ≤ now - st.last_refresh)

/-- State transition of the scheduler: when the refresh fires the code
sets session_state.last_refresh to the current time and reruns;
otherwise the state is unchanged. -/
def tick (st : RefreshState) (now : ℚ) : RefreshState :=
  if should_refresh st now then { st with last_refresh := now } else st

/-- Manual refresh from src/utils/sidebar.py: the Refresh Now button
handler unconditionally sets last_refresh to the current time and
reruns, independent of the auto-refresh flag. -/
def manual_refresh (st : RefreshState) (now : ℚ) : RefreshState :=
  { st with last_refresh := now }

/-- State pair of a run as carried by the SDK run object: the lifecycle
state and the optional result state. -/
structure RunState where
  life_cycle_state : RunLifeCycleState
  result_state : Option RunResultState
deriving DecidableEq, Repr

/-- Run snapshot with the fields src/app.py reads from an SDK run. -/
structure Run where
  run_id : Nat
  state : RunState
  start_time : Option Int
  end_time : Option Int
  run_page_url : String
deriving DecidableEq, Repr

/-- Show-cancel decision from src/app.py lines 211 to 215: false when
the run list is empty, and otherwise the membership test of the latest
run lifecycle state in the list RUNNING, PENDING. -/
def show_cancel_flag (runs : List Run) : Bool :=
  match runs with
  | [] => false
  | latest :: _ =>
    decide (latest.state.life_cycle_state = .RUNNING ∨
      latest.state.life_cycle_state = .PENDING)

/-- Configured job entry from config.yaml: a job id and an optional
display name. -/
structure JobConfig where
  job_id : Nat
  display_name : Option String
deriving DecidableEq, Repr

/-- Job metadata returned by the orchestration client; src/app.py reads
only settings.name from it. -/
structure Job where
  name : String
deriving DecidableEq, Repr

/-- Orchestration client over the two read calls the job card uses;
each call either returns a well-typed value or fails with a message. -/
structure Client where
  get_job : Nat → Except String Job
  list_runs : Nat → Except String (List Run)

/-- Items the dashboard emits while rendering: inline error boxes from
st.error and one card per successfully fetched job. -/
inductive RenderItem where
  | errorBox (msg : String)
  | card (job_id : Nat) (name : String) (runs : List Run)
deriving DecidableEq, Repr

/-- Embedding of get_job_details from src/app.py lines 84 to 91: on
failure it shows an error box and returns None. -/
def get_job_details (client : Client) (job_id : Nat) :
    Option Job × List RenderItem :=
  match client.get_job job_id with
  | .ok job => (some job, [])
  | .error e =>
      (none, [.errorBox ("Error fetching job " ++ toString job_id ++ ": " ++ e)])

/-- Embedding of get_job_runs from src/app.py lines 94 to 101: on
failure it shows an error box and returns the empty list. -/
def get_job_runs (client : Client) (job_id : Nat) :
    List Run × List RenderItem :=
  match client.list_runs job_id with
  | .ok runs => (runs, [])
  | .error e =>
      ([], [.errorBox ("Error fetching runs for job " ++ toString job_id ++ ": " ++ e)])

/-- Embedding of display_job_card from src/app.py lines 175 to 289,
restricted to what it emits: when the metadata fetch fails the card
returns early after the error box; otherwise the runs are fetched, any
runs-fetch error box is emitted, and the card itself is rendered. -/
def display_job_card (client : Client) (cfg : JobConfig) : List RenderItem :=
  let fetched := get_job_details client cfg.job_id
  match fetched.1 with
  | none => fetched.2
  | some job =>
    let runs := get_job_runs client cfg.job_id
    fetched.2 ++ runs.2 ++ [.card cfg.job_id job.name runs.1]

/-- Embedding of the job loop in main, src/app.py lines 375 to 376: one
display_job_card call per configured job, in configured order. -/
def render_jobs (client : Client) (jobs : List JobConfig) : List RenderItem :=
  match jobs with
  | [] => []
  | cfg :: rest => display_job_card client cfg ++ render_jobs client rest

/-- Job id of a card item, none for error boxes. -/
def cardJobId : RenderItem → Option Nat
  | .card job_id _ _ => some job_id
  | .errorBox _ => none

/-- Decision of whether a fetch result is a success. -/
def isOkFetch (r : Except String Job) : Bool :=
  match r with
  | .ok _ => true
  | .error _ => false

/-- Concrete two-job client where the fetch of job 1 fails and the
fetch of job 2 succeeds, used to exercise the aggregation loop. -/
def sampleClient : Client where
  get_job := fun id =>
    if id = 1 then .error "boom" else .ok ⟨"jobB"⟩
  list_runs := fun _ => .ok []

/-- Helper: the string str() of any lifecycle state value is non-empty,
because it always carries the class-name prefix. -/
theorem pyStr_ne_empty (state : RunLifeCycleState) : pyStr state ≠ "" := by
  cases state with
  | UNKNOWN name =>
      intro h
      have hlen : (("RunLifeCycleState." ++ name) : String).length = 0 := by
        rw [pyStr] at h
        rw [h]
        rfl
      rw [String.length_append] at hlen
      have hpre : ("RunLifeCycleState." : String).length = 18 := rfl
      omega
  | _ => simp [pyStr]

/-- C1: the status classifier is total: for every lifecycle-state value,
the nine known states as well as any unrecognized member, and every
result-state value or an absent result state, get_status_info returns a
display tuple whose label is a non-empty string; being a total Lean
function of these arguments it never fails, and the unrecognized states
reach the final else branch, which returns the neutral style. -/
theorem get_status_info_total (state : RunLifeCycleState)
    (result_state : Option RunResultState) :
    (get_status_info state result_state).label ≠ "" ∧
    (∀ name, get_status_info (.UNKNOWN name) result_state =
      ⟨"⚪", Config.STATUS_NEUTRAL, pyStr (.UNKNOWN name), "status-neutral"⟩) := by
  constructor
  · cases state with
    | TERMINATED =>
        match result_state with
        | none => simp [get_status_info]
        | some .CANCELED => simp [get_status_info]
        | some .FAILED => simp [get_status_info]
        | some .MAXIMUM_CONCURRENT_RUNS_REACHED => simp [get_status_info]
        | some .SUCCESS => simp [get_status_info]
        | some .TIMEDOUT => simp [get_status_info]
        | some (.UNKNOWN n) => simp [get_status_info]
    | UNKNOWN name =>
        have h : (get_status_info (.UNKNOWN name) result_state).label = pyStr (.UNKNOWN name) := by
          simp [get_status_info]
        rw [h]
        exact pyStr_ne_empty _
    | _ => simp [get_status_info, pyStr]
  · intro name
    simp [get_status_info]

/-- C2: the decision table of the classifier, first match winning:
RUNNING or PENDING map to label RUNNING for every result state;
TERMINATING maps to TERMINATING; TERMINATED maps to SUCCESS, FAILED,
CANCELED or TIMEOUT for the four matching result states and to
TERMINATED for every other or absent result state; SKIPPED maps to
SKIPPED; INTERNAL_ERROR maps to ERROR; and every other lifecycle state
maps to the raw state string with the neutral style. -/
theorem get_status_info_decision_table :
    (∀ r, (get_status_info .RUNNING r).label = "RUNNING") ∧
    (∀ r, (get_status_info .PENDING r).label = "RUNNING") ∧
    (∀ r, (get_status_info .TERMINATING r).label = "TERMINATING") ∧
    (get_status_info .TERMINATED (some .SUCCESS)).label = "SUCCESS" ∧
    (get_status_info .TERMINATED (some .FAILED)).label = "FAILED" ∧
    (get_status_info .TERMINATED (some .CANCELED)).label = "CANCELED" ∧
    (get_status_info .TERMINATED (some .TIMEDOUT)).label = "TIMEOUT" ∧
    (get_status_info .TERMINATED none).label = "TERMINATED" ∧
    (get_status_info .TERMINATED (some .MAXIMUM_CONCURRENT_RUNS_REACHED)).label
      = "TERMINATED" ∧
    (∀ n, (get_status_info .TERMINATED (some (.UNKNOWN n))).label = "TERMINATED") ∧
    (∀ r, (get_status_info .SKIPPED r).label = "SKIPPED") ∧
    (∀ r, (get_status_info .INTERNAL_ERROR r).label = "ERROR") ∧
    (∀ r, get_status_info .BLOCKED r =
      ⟨"⚪", Config.STATUS_NEUTRAL, pyStr .BLOCKED, "status-neutral"⟩) ∧
    (∀ r, get_status_info .QUEUED r =
      ⟨"⚪", Config.STATUS_NEUTRAL, pyStr .QUEUED, "status-neutral"⟩) ∧
    (∀ r, get_status_info .WAITING_FOR_RETRY r =
      ⟨"⚪", Config.STATUS_NEUTRAL, pyStr .WAITING_FOR_RETRY, "status-neutral"⟩) ∧
    (∀ n r, get_status_info (.UNKNOWN n) r =
      ⟨"⚪", Config.STATUS_NEUTRAL, pyStr (.UNKNOWN n), "status-neutral"⟩) := by
  refine ⟨?_, ?_, ?_, ?_, ?_, ?_, ?_, ?_, ?_, ?_, ?_, ?_, ?_, ?_, ?_, ?_⟩ <;>
    intros <;> simp [get_status_info]

/-- C9: classifying lifecycle state RUNNING gives exactly the same
display tuple as classifying lifecycle state PENDING, for every present
or absent result-state argument. -/
theorem get_status_info_running_eq_pending (r : Option RunResultState) :
    get_status_info .RUNNING r = get_status_info .PENDING r := by
  simp [get_status_info]

/-- Helper: branch structure of calculate_duration when both endpoints
are present and non-zero. -/
theorem calculate_duration_some (s e : Int) (hs : s ≠ 0) (he : e ≠ 0) :
    calculate_duration (some s) (some e) =
      if ((e : ℚ) - (s : ℚ)) / 1000 < 60 then
        toString (pyInt (((e : ℚ) - (s : ℚ)) / 1000)) ++ "s"
      else if ((e : ℚ) - (s : ℚ)) / 1000 < 3600 then
        toString (pyInt (((e : ℚ) - (s : ℚ)) / 1000 / 60)) ++ "m " ++
          toString (pyInt (pyFmod (((e : ℚ) - (s : ℚ)) / 1000) 60)) ++ "s"
      else
        toString (pyInt (((e : ℚ) - (s : ℚ)) / 1000 / 3600)) ++ "h " ++
          toString (pyInt (pyFmod (((e : ℚ) - (s : ℚ)) / 1000) 3600 / 60)) ++ "m" := by
  simp [calculate_duration, hs, he]

/-- C3 counterexample: the claim asserts format_duration(0, 45000) is
the string 45s, but in the code a start timestamp of exactly 0 is falsy
in the Python guard, so calculate_duration returns the fallback. -/
theorem calculate_duration_zero_start_counterexample :
    calculate_duration (some 0) (some 45000) = "N/A" ∧
      ("N/A" : String) ≠ "45s" := by
  exact ⟨by decide, by decide⟩

/-- C3 as amended: calculate_duration returns the fallback when either
endpoint is absent or exactly zero; otherwise with duration_sec the
exact rational (end - start) / 1000 it renders seconds below one
minute, minutes and seconds below one hour, and hours and minutes
otherwise, every component truncated toward zero by int(), which equals
the floor for the non-negative durations; the claimed examples hold
with the start timestamp moved off zero. -/
theorem calculate_duration_amended :
    (∀ e, calculate_duration none e = "N/A") ∧
    (∀ s, calculate_duration s none = "N/A") ∧
    (∀ e : Int, calculate_duration (some 0) (some e) = "N/A") ∧
    (∀ s : Int, calculate_duration (some s) (some 0) = "N/A") ∧
    (∀ s e : Int, s ≠ 0 → e ≠ 0 → ((e : ℚ) - (s : ℚ)) / 1000 < 60 →
      calculate_duration (some s) (some e) =
        toString (pyInt (((e : ℚ) - (s : ℚ)) / 1000)) ++ "s") ∧
    (∀ s e : Int, s ≠ 0 → e ≠ 0 → 60 ≤ ((e : ℚ) - (s : ℚ)) / 1000 →
      ((e : ℚ) - (s : ℚ)) / 1000 < 3600 →
      calculate_duration (some s) (some e) =
        toString (pyInt (((e : ℚ) - (s : ℚ)) / 1000 / 60)) ++ "m " ++
          toString (pyInt (pyFmod (((e : ℚ) - (s : ℚ)) / 1000) 60)) ++ "s") ∧
    (∀ s e : Int, s ≠ 0 → e ≠ 0 → 3600 ≤ ((e : ℚ) - (s : ℚ)) / 1000 →
      calculate_duration (some s) (some e) =
        toString (pyInt (((e : ℚ) - (s : ℚ)) / 1000 / 3600)) ++ "h " ++
          toString (pyInt (pyFmod (((e : ℚ) - (s : ℚ)) / 1000) 3600 / 60)) ++ "m") ∧
    (∀ q : ℚ, 0 ≤ q → pyInt q = ⌊q⌋) ∧
    calculate_duration (some 1000) (some 46000) = "45s" ∧
    calculate_duration (some 1000) (some 126000) = "2m 5s" ∧
    calculate_duration (some 1000) (some 3726000) = "1h 2m" := by
  refine ⟨?_, ?_, ?_, ?_, ?_, ?_, ?_, ?_, ?_, ?_, ?_⟩
  · intro e; cases e <;> rfl
  · intro s; cases s <;> simp [calculate_duration]
  · intro e; simp [calculate_duration]
  · intro s; simp [calculate_duration]
  · intro s e hs he h
    rw [calculate_duration_some s e hs he, if_pos h]
  · intro s e hs he h1 h2
    rw [calculate_duration_some s e hs he, if_neg (by exact not_lt.mpr h1), if_pos h2]
  · intro s e hs he h
    rw [calculate_duration_some s e hs he, if_neg (by exact not_lt.mpr (by linarith)),
      if_neg (not_lt.mpr h)]
  · intro q hq
    simp [pyInt, hq]
  · rw [calculate_duration_some 1000 46000 (by decide) (by decide)]
    have hd : (((46000 : Int) : ℚ) - ((1000 : Int) : ℚ)) / 1000 = 45 := by norm_num
    rw [hd, if_pos (by norm_num : (45 : ℚ) < 60),
      show pyInt 45 = ⌊(45 : ℚ)⌋ from if_pos (by norm_num),
      show ⌊(45 : ℚ)⌋ = 45 by norm_num]
    decide
  · rw [calculate_duration_some 1000 126000 (by decide) (by decide)]
    have hd : (((126000 : Int) : ℚ) - ((1000 : Int) : ℚ)) / 1000 = 125 := by norm_num
    have hf : ⌊(125 : ℚ) / 60⌋ = 2 := by
      rw [Int.floor_eq_iff]; norm_num
    have hm : pyFmod (125 : ℚ) 60 = 5 := by
      simp only [pyFmod, hf]
      norm_num
    rw [hd, if_neg (by norm_num : ¬((125 : ℚ) < 60)),
      if_pos (by norm_num : (125 : ℚ) < 3600),
      show pyInt ((125 : ℚ) / 60) = ⌊(125 : ℚ) / 60⌋ from if_pos (by norm_num),
      hf, hm,
      show pyInt 5 = ⌊(5 : ℚ)⌋ from if_pos (by norm_num),
      show ⌊(5 : ℚ)⌋ = 5 by norm_num]
    decide
  · rw [calculate_duration_some 1000 3726000 (by decide) (by decide)]
    have hd : (((3726000 : Int) : ℚ) - ((1000 : Int) : ℚ)) / 1000 = 3725 := by norm_num
    have hf1 : ⌊(3725 : ℚ) / 3600⌋ = 1 := by
      rw [Int.floor_eq_iff]; norm_num
    have hm : pyFmod (3725 : ℚ) 3600 = 125 := by
      simp only [pyFmod, hf1]
      norm_num
    have hf3 : ⌊(125 : ℚ) / 60⌋ = 2 := by
      rw [Int.floor_eq_iff]; norm_num
    rw [hd, if_neg (by norm_num : ¬((3725 : ℚ) < 60)),
      if_neg (by norm_num : ¬((3725 : ℚ) < 3600)),
      show pyInt ((3725 : ℚ) / 3600) = ⌊(3725 : ℚ) / 3600⌋ from if_pos (by norm_num),
      hf1, hm,
      show pyInt ((125 : ℚ) / 60) = ⌊(125 : ℚ) / 60⌋ from if_pos (by norm_num),
      hf3]
    decide

/-- C3 amended witness: the seconds branch at the concrete input 1000
and 46000, duration 45 seconds. -/
theorem calculate_duration_amended_witness :
    ((1000 : Int) ≠ 0 ∧ (46000 : Int) ≠ 0 ∧
      (((46000 : Int) : ℚ) - ((1000 : Int) : ℚ)) / 1000 < 60) ∧
    calculate_duration (some 1000) (some 46000) =
      toString (pyInt ((((46000 : Int) : ℚ) - ((1000 : Int) : ℚ)) / 1000)) ++ "s" :=
  ⟨⟨by decide, by decide, by norm_num⟩,
    calculate_duration_amended.2.2.2.2.1 1000 46000 (by decide) (by decide) (by norm_num)⟩

/-- C10: both formatting helpers test presence by Python truthiness, so
an epoch value of exactly 0 is treated the same as an absent value:
format_timestamp of 0 is the fallback, and calculate_duration returns
the fallback whenever either endpoint is 0, whatever the other endpoint
is. -/
theorem truthiness_zero_treated_as_absent :
    format_timestamp (some 0) = "N/A" ∧
    (∀ e, calculate_duration (some 0) e = "N/A") ∧
    (∀ s, calculate_duration s (some 0) = "N/A") := by
  refine ⟨rfl, ?_, ?_⟩
  · intro e; cases e <;> simp [calculate_duration]
  · intro s; cases s <;> simp [calculate_duration]

/-- C8 counterexample: the claim asserts that any present
epoch-milliseconds value is rendered as a converted timestamp, but a
present value of exactly 0 is falsy in the Python guard, so the code
returns the fallback instead of the rendering the conversion would
give. -/
theorem format_timestamp_zero_counterexample :
    format_timestamp (some 0) = "N/A" ∧
    render_local_timestamp 0 = "1969-12-31 19:00:00" ∧
    ("N/A" : String) ≠ "1969-12-31 19:00:00" :=
  ⟨by decide, by decide, by decide⟩

/-- C8 as amended: format_timestamp returns the fallback when the
epoch-milliseconds value is absent or exactly zero, and otherwise
returns the instant converted to the configured America/New_York
display timezone in the year-month-day hour:minute:second rendering;
the pinned UTC instant 1700000000000 ms renders as the exact literal
under the EST offset. -/
theorem format_timestamp_amended :
    format_timestamp none = "N/A" ∧
    format_timestamp (some 0) = "N/A" ∧
    (∀ ts : Int, ts ≠ 0 → format_timestamp (some ts) = render_local_timestamp ts) ∧
    format_timestamp (some 1700000000000) = "2023-11-14 17:13:20" := by
  refine ⟨rfl, rfl, ?_, by decide⟩
  intro ts hts
  simp [format_timestamp, hts]

/-- C8 amended witness: the conversion branch applied at the pinned
non-zero instant. -/
theorem format_timestamp_amended_witness :
    (1700000000000 : Int) ≠ 0 ∧
    format_timestamp (some 1700000000000) = render_local_timestamp 1700000000000 :=
  ⟨by decide, format_timestamp_amended.2.2.1 1700000000000 (by decide)⟩

/-- C4: with the auto-refresh toggle on, the scheduler fires exactly
when now - last_refresh is at least the configured interval; with
interval 30 and last refresh T it does not fire at T + 29 and fires at
T + 30; and on firing the state transition resets last_refresh to the
fire time, restarting the wait. -/
theorem should_refresh_fires_iff :
    (∀ (st : RefreshState) (now : ℚ), st.auto_refresh = true →
      (should_refresh st now = true ↔
        (st.refresh_interval : ℚ) ≤ now - st.last_refresh)) ∧
    (∀ (st : RefreshState) (now : ℚ), should_refresh st now = true →
      tick st now = { st with last_refresh := now }) ∧
    (∀ T : ℚ, should_refresh ⟨true, 30, T⟩ (T + 29) = false) ∧
    (∀ T : ℚ, should_refresh ⟨true, 30, T⟩ (T + 30) = true) ∧
    (∀ T : ℚ, tick ⟨true, 30, T⟩ (T + 30) = ⟨true, 30, T + 30⟩) := by
  refine ⟨?_, ?_, ?_, ?_, ?_⟩
  · intro st now h
    simp [should_refresh, h]
  · intro st now h
    simp [tick, h]
  · intro T
    simp only [should_refresh, Bool.true_and, decide_eq_false_iff_not, not_le]
    push_cast
    linarith
  · intro T
    simp only [should_refresh, Bool.true_and, decide_eq_true_eq]
    push_cast
    linarith
  · intro T
    have hfire : should_refresh ⟨true, 30, T⟩ (T + 30) = true := by
      simp only [should_refresh, Bool.true_and, decide_eq_true_eq]
      push_cast
      linarith
    simp [tick, hfire]

/-- C4 witness: at the concrete state with last refresh 100, interval
30 and now 130, the toggle is on, the iff instance holds, the scheduler
fires and the transition resets last_refresh to 130. -/
theorem should_refresh_fires_iff_witness :
    (RefreshState.mk true 30 100).auto_refresh = true ∧
    (should_refresh ⟨true, 30, 100⟩ 130 = true ↔
      ((30 : Int) : ℚ) ≤ 130 - 100) ∧
    should_refresh ⟨true, 30, 100⟩ 130 = true ∧
    tick ⟨true, 30, 100⟩ 130 = ⟨true, 30, 130⟩ :=
  ⟨rfl, should_refresh_fires_iff.1 ⟨true, 30, 100⟩ 130 rfl,
    by norm_num [should_refresh],
    should_refresh_fires_iff.2.1 ⟨true, 30, 100⟩ 130 (by norm_num [should_refresh])⟩

/-- C5: with the auto-refresh toggle off, the scheduler never fires
whatever the current time, last refresh time and interval, and the
state never auto-resets; the manual refresh transition remains an
unconditional reset of last_refresh, independent of the toggle. -/
theorem no_auto_refresh_when_disabled :
    (∀ (interval : Int) (last now : ℚ),
      should_refresh ⟨false, interval, last⟩ now = false) ∧
    (∀ (interval : Int) (last now : ℚ),
      tick ⟨false, interval, last⟩ now = ⟨false, interval, last⟩) ∧
    (∀ (st : RefreshState) (now : ℚ),
      manual_refresh st now = { st with last_refresh := now }) := by
  refine ⟨?_, ?_, ?_⟩
  · intro interval last now
    simp [should_refresh]
  · intro interval last now
    simp [tick, should_refresh]
  · intro st now
    rfl

/-- Helper: the card items a single job card contributes are exactly
one card with its configured job id when the metadata fetch succeeds
and none when it fails. -/
theorem filterMap_cardJobId_display (client : Client) (cfg : JobConfig) :
    (display_job_card client cfg).filterMap cardJobId =
      if isOkFetch (client.get_job cfg.job_id) then [cfg.job_id] else [] := by
  cases hj : client.get_job cfg.job_id with
  | error e =>
      simp [display_job_card, get_job_details, hj, cardJobId, isOkFetch]
  | ok job =>
      cases hr : client.list_runs cfg.job_id with
      | error e2 =>
          simp [display_job_card, get_job_details, get_job_runs, hj, hr,
            cardJobId, isOkFetch]
      | ok runs =>
          simp [display_job_card, get_job_details, get_job_runs, hj, hr,
            cardJobId, isOkFetch]

/-- C6: per-job failures are isolated: over every client behavior and
job configuration, the cards that the view renders are exactly the
configured jobs whose metadata fetch succeeds, in configured order, so
one failing job never aborts the rest; and every configured job whose
metadata fetch fails contributes its error box to the rendered
output. -/
theorem per_job_failure_isolated :
    (∀ (client : Client) (jobs : List JobConfig),
      (render_jobs client jobs).filterMap cardJobId =
        (jobs.filter fun cfg => isOkFetch (client.get_job cfg.job_id)).map
          fun cfg => cfg.job_id) ∧
    (∀ (client : Client) (jobs : List JobConfig) (cfg : JobConfig) (e : String),
      cfg ∈ jobs → client.get_job cfg.job_id = .error e →
      RenderItem.errorBox ("Error fetching job " ++ toString cfg.job_id ++ ": " ++ e)
        ∈ render_jobs client jobs) := by
  constructor
  · intro client jobs
    induction jobs with
    | nil => rfl
    | cons head rest ih =>
        by_cases hok : isOkFetch (client.get_job head.job_id) = true
        · simp [render_jobs, List.filterMap_append, filterMap_cardJobId_display,
            ih, hok]
        · rw [Bool.not_eq_true] at hok
          simp [render_jobs, List.filterMap_append, filterMap_cardJobId_display,
            ih, hok]
  · intro client jobs cfg e
    induction jobs with
    | nil =>
        intro hmem _
        exact absurd hmem (List.not_mem_nil _)
    | cons head rest ih =>
        intro hmem herr
        rw [render_jobs]
        rcases List.mem_cons.mp hmem with h | h
        · subst h
          apply List.mem_append_left
          simp [display_job_card, get_job_details, herr]
        · exact List.mem_append_right _ (ih h herr)

/-- C6 witness: with the concrete two-job configuration against
sampleClient, where fetching job 1 fails with the message boom and
fetching job 2 succeeds, job 1 is in the configuration and yields its
error box while the rendered cards are exactly those of the succeeding
jobs in configured order. -/
theorem per_job_failure_isolated_witness :
    ((⟨1, none⟩ : JobConfig) ∈ [(⟨1, none⟩ : JobConfig), ⟨2, none⟩] ∧
      sampleClient.get_job 1 = .error "boom") ∧
    RenderItem.errorBox ("Error fetching job " ++ toString (1 : Nat) ++ ": " ++ "boom")
      ∈ render_jobs sampleClient [⟨1, none⟩, ⟨2, none⟩] ∧
    (render_jobs sampleClient [⟨1, none⟩, ⟨2, none⟩]).filterMap cardJobId =
      ([(⟨1, none⟩ : JobConfig), ⟨2, none⟩].filter
        fun cfg => isOkFetch (sampleClient.get_job cfg.job_id)).map
        fun cfg => cfg.job_id :=
  ⟨⟨by simp, rfl⟩,
    per_job_failure_isolated.2 sampleClient [⟨1, none⟩, ⟨2, none⟩] ⟨1, none⟩ "boom"
      (by simp) rfl,
    per_job_failure_isolated.1 sampleClient [⟨1, none⟩, ⟨2, none⟩]⟩

/-- C7: the show-cancel flag is false on an empty run list, and on a
non-empty run list it is true exactly when the latest run, at index 0,
has lifecycle state RUNNING or PENDING, independent of every earlier
run in the history. -/
theorem show_cancel_iff_latest_running_or_pending :
    show_cancel_flag [] = false ∧
    (∀ (latest : Run) (earlier : List Run),
      (show_cancel_flag (latest :: earlier) = true ↔
        latest.state.life_cycle_state = .RUNNING ∨
          latest.state.life_cycle_state = .PENDING)) ∧
    (∀ (latest : Run) (e1 e2 : List Run),
      show_cancel_flag (latest :: e1) = show_cancel_flag (latest :: e2)) := by
  refine ⟨rfl, ?_, ?_⟩
  · intro latest earlier
    simp [show_cancel_flag]
  · intro latest e1 e2
    simp [show_cancel_flag]
